import Mathlib

/-!
Verification development for the synthetic retail-sales pipeline
(`generate_sales.py`, `loader.py`, `simple_database.py`).

The Python sources are shallowly embedded: pandas data frames become lists of
typed rows, the PostgreSQL store becomes an explicit `DBState` value, the
`random` module becomes an explicit value supply threaded through the
generator, and exceptions become `Option`/outcome parameters.  Machine floats
are modelled by `ℚ`.
-/

namespace SalesPipeline

/-- Value of a run of decimal digit characters (as produced by `int(...)` on a
digit string in Python). -/
def digitsToNat (ds : List Char) : Nat :=
  ds.foldl (fun a c => a * 10 + (c.toNat - 48)) 0

/-- A calendar date, as produced by `datetime.date`. -/
structure Date where
  year : Nat
  month : Nat
  day : Nat
deriving DecidableEq

/-- Gregorian leap-year rule used by `datetime`. -/
def isLeap (y : Nat) : Bool :=
  y % 4 == 0 && (y % 100 != 0 || y % 400 == 0)

/-- Number of days in a month, as validated by the `datetime` constructor. -/
def daysInMonth (y m : Nat) : Nat :=
  if m = 2 then (if isLeap y then 29 else 28)
  else if m = 4 ∨ m = 6 ∨ m = 9 ∨ m = 11 then 30
  else 31

/-- Splits a character list at each `'-'` (the behaviour of
`String.splitOn "-"` for a one-character separator). -/
def splitDash (cs : List Char) : List (List Char) :=
  match cs with
  | [] => [[]]
  | c :: rest =>
    if c = '-' then [] :: splitDash rest
    else
      match splitDash rest with
      | [] => [[c]]
      | g :: gs => (c :: g) :: gs

/-- Embeds `datetime.strptime(s, "%Y-%m-%d")`: exactly four digits of year,
one or two digits of month (1..12) and day (valid for the month), the whole
string consumed; any failure (including an invalid calendar date) raises
`ValueError` in Python and yields `none` here.  Year 0 is rejected because
`datetime.MINYEAR = 1`. -/
def parseDate (s : String) : Option Date :=
  match splitDash s.toList with
  | [yc, mc, dc] =>
    if yc.length = 4 ∧ yc.all Char.isDigit
        ∧ 1 ≤ mc.length ∧ mc.length ≤ 2 ∧ mc.all Char.isDigit
        ∧ 1 ≤ dc.length ∧ dc.length ≤ 2 ∧ dc.all Char.isDigit then
      let y := digitsToNat yc
      let m := digitsToNat mc
      let d := digitsToNat dc
      if 1 ≤ y ∧ 1 ≤ m ∧ m ≤ 12 ∧ 1 ≤ d ∧ d ≤ daysInMonth y m then
        some ⟨y, m, d⟩
      else none
    else none
  | _ => none

/-- Left-pads a numeral with zeros, as `strftime` field formatting does. -/
def padZeros (w : Nat) (n : Nat) : String :=
  let s := toString n
  String.mk (List.replicate (w - s.length) '0') ++ s

/-- Embeds `date.strftime("%Y-%m-%d")` (zero-padded fields). -/
def formatDate (dt : Date) : String :=
  padZeros 4 dt.year ++ "-" ++ padZeros 2 dt.month ++ "-" ++ padZeros 2 dt.day

/-- Days in the months strictly before month `m` of year `y`. -/
def daysBeforeMonth (y m : Nat) : Nat :=
  (List.range (m - 1)).foldl (fun a i => a + daysInMonth y (i + 1)) 0

/-- Rata-die day number of a date (day 1 = 0001-01-01, proleptic Gregorian),
matching `datetime.date.toordinal`. -/
def rataDie (dt : Date) : Nat :=
  365 * (dt.year - 1) + (dt.year - 1) / 4 + (dt.year - 1) / 400
    + daysBeforeMonth dt.year dt.month + dt.day - (dt.year - 1) / 100

/-- Embeds `datetime.weekday()`: Monday = 0 … Sunday = 6. -/
def weekday (dt : Date) : Nat :=
  (rataDie dt + 6) % 7

/-- One cell of a parsed CSV table: either missing (`NaN` after `read_csv`)
or a raw value. -/
inductive Cell where
  | missing
  | val (s : String)
deriving DecidableEq

/-- Embeds numeric parsing of one cell value as performed by
`pd.to_numeric(..., errors="coerce")` on plain decimal literals: optional
sign, integer part, optional fractional part; anything else coerces to `NaN`
(`none`). -/
def parseNum (s : String) : Option ℚ :=
  let cs := s.toList
  let signed : Bool × List Char :=
    match cs with
    | '-' :: rest => (true, rest)
    | '+' :: rest => (false, rest)
    | _ => (false, cs)
  let neg := signed.1
  let body := signed.2
  let ipSplit := body.span Char.isDigit
  let ip := ipSplit.1
  let rest := ipSplit.2
  let mag : Option ℚ :=
    match rest with
    | [] => if ip.isEmpty then none else some (mkRat (digitsToNat ip) 1)
    | '.' :: fp =>
      if fp.all Char.isDigit ∧ (ip ≠ [] ∨ fp ≠ []) then
        some (mkRat (digitsToNat ip * 10 ^ fp.length + digitsToNat fp) (10 ^ fp.length))
      else none
    | _ => none
  mag.map (fun q => if neg then -q else q)

/-- `pd.to_numeric(cell, errors="coerce")`: a missing cell stays `NaN`. -/
def toNumericCell (c : Cell) : Option ℚ :=
  match c with
  | .missing => none
  | .val s => parseNum s

/-- Truncation toward zero, as `astype(int)` does on floats (`Int.tdiv` is
t-division, i.e. rounds toward zero; a rational's denominator is positive). -/
def truncQ (q : ℚ) : Int :=
  Int.tdiv q.num (q.den : Int)

/-- Floor of a rational, via floor division of numerator by (positive)
denominator. -/
def ratFloorI (q : ℚ) : Int :=
  Int.fdiv q.num (q.den : Int)

/-- The `amount` pipeline of `read_and_prepare_data`:
`pd.to_numeric(..., errors="coerce").fillna(1).astype(int)`. -/
def coerceAmount (c : Cell) : Int :=
  truncQ ((toNumericCell c).getD 1)

/-- The `price`/`discount` pipeline of `read_and_prepare_data`:
`pd.to_numeric(..., errors="coerce").fillna(0)` (for `discount`, the earlier
`fillna({'discount': 0})` also sends a missing cell to `0`). -/
def coerceMoney (c : Cell) : ℚ :=
  (toNumericCell c).getD 0

/-- Round-half-to-even on `ℚ`, the rounding used by `numpy`/`pandas.round`
and by Python `round`.  Computed on numerator and denominator: with
`n = ⌊x⌋` the fractional remainder is `r / den`, compared with `1 / 2` via
`2 * r` against `den`. -/
def roundHalfEven (x : ℚ) : Int :=
  let n := ratFloorI x
  let r := x.num - n * (x.den : Int)
  if 2 * r < (x.den : Int) then n
  else if (x.den : Int) < 2 * r then n + 1
  else if n % 2 = 0 then n else n + 1

/-- Embeds `.round(2)` on a money value (`mkRat (q.num * 100) q.den` is the
normalized value of `q * 100`). -/
def round2 (q : ℚ) : ℚ :=
  mkRat (roundHalfEven (mkRat (q.num * 100) q.den)) 100

/-- Index of the last `'.'` in a character list, if any. -/
def lastDotIdx (cs : List Char) : Option Nat :=
  match cs with
  | [] => none
  | c :: rest =>
    match lastDotIdx rest with
    | some i => some (i + 1)
    | none => if c = '.' then some 0 else none

/-- Embeds `pathlib.PurePath.suffix`: the final extension including the dot,
empty when the last dot is at position 0 or at the very end. -/
def pathSuffix (name : String) : String :=
  let cs := name.toList
  match lastDotIdx cs with
  | some i => if 0 < i ∧ i + 1 < cs.length then String.mk (cs.drop i) else ""
  | none => ""

/-- `str.lower()` on a file suffix (ASCII case fold suffices here). -/
def lowerStr (s : String) : String :=
  String.mk (s.toList.map Char.toLower)

/-- Embeds `DataLoader.extract_store_cash_from_filename`: matches the file
name against the anchored pattern `(\d+)_(\d+)\.csv$` and returns the two
numbers. -/
def extract_store_cash_from_filename (name : String) : Option (Nat × Nat) :=
  let cs := name.toList
  let s1 := cs.span Char.isDigit
  if s1.1 = [] then none
  else
    match s1.2 with
    | '_' :: r2 =>
      let s2 := r2.span Char.isDigit
      if s2.1 = [] then none
      else if s2.2 = ['.', 'c', 's', 'v'] then
        some (digitsToNat s1.1, digitsToNat s2.1)
      else none
    | _ => none

/-! ### The relational store (`simple_database.py`)

The PostgreSQL database is embedded as an explicit value: the `receipts`
table is a list of rows and the `processed_files` ledger a list of
`(file_name, entry)` pairs (the `ON CONFLICT (file_name)` upserts keep at
most one entry per file name).  Connection/transaction failures, which in
Python surface as exceptions, are injected through a `SaveOutcome`
parameter; `CURRENT_TIMESTAMP` is a `now` parameter. -/

/-- Status column of the `processed_files` ledger. -/
inductive FileStatus where
  | success
  | error
deriving DecidableEq

/-- One `processed_files` row (minus the file-name key). -/
structure LedgerEntry where
  status : FileStatus
  records_count : Option Nat
  error_message : Option String
  processed_at : Nat
deriving DecidableEq

/-- One `receipts` row as inserted by `save_file_data`. -/
structure ReceiptRow where
  doc_id : String
  store_id : Nat
  cash_id : Nat
  item : String
  category : Cell
  quantity : Int
  unit_price : ℚ
  discount_amount : ℚ
  receipt_date : Date
  file_name : String
deriving DecidableEq

/-- The persistent state of the two tables. -/
structure DBState where
  receipts : List ReceiptRow
  processed_files : List (String × LedgerEntry)
deriving DecidableEq

/-- One cleaned row of `read_and_prepare_data`'s output frame. -/
structure OutRow where
  doc_id : String
  item : String
  category : Cell
  amount : Int
  price : ℚ
  discount : ℚ
  store_id : Nat
  cash_id : Nat
  receipt_date : Date
deriving DecidableEq

/-- The `INSERT INTO receipts ...` of one cleaned row. -/
def toReceiptRow (filename : String) (r : OutRow) : ReceiptRow :=
  { doc_id := r.doc_id
    store_id := r.store_id
    cash_id := r.cash_id
    item := r.item
    category := r.category
    quantity := r.amount
    unit_price := r.price
    discount_amount := r.discount
    receipt_date := r.receipt_date
    file_name := filename }

/-- The column updates of the success-path upsert's `DO UPDATE SET` clause
(the error message column is not touched). -/
def applySuccess (n now : Nat) (e : LedgerEntry) : LedgerEntry :=
  { e with status := .success, records_count := some n, processed_at := now }

/-- The column updates of the error-path upsert's `DO UPDATE SET` clause
(the row-count column is not touched). -/
def applyError (msg : String) (now : Nat) (e : LedgerEntry) : LedgerEntry :=
  { e with status := .error, error_message := some msg, processed_at := now }

/-- The success-path ledger upsert:
`INSERT ... VALUES (fn, n, 'success') ON CONFLICT (file_name) DO UPDATE SET
processed_at = CURRENT_TIMESTAMP, status = 'success',
records_count = EXCLUDED.records_count`. -/
def upsertSuccess (fn : String) (n : Nat) (now : Nat)
    (ledger : List (String × LedgerEntry)) : List (String × LedgerEntry) :=
  if (ledger.lookup fn).isSome then
    ledger.map (fun p => if p.1 = fn then (p.1, applySuccess n now p.2) else p)
  else
    ledger ++ [(fn, { status := .success, records_count := some n,
                      error_message := none, processed_at := now })]

/-- The error-path ledger upsert:
`INSERT ... VALUES (fn, 'error', msg) ON CONFLICT (file_name) DO UPDATE SET
processed_at = CURRENT_TIMESTAMP, status = 'error',
error_message = EXCLUDED.error_message`. -/
def upsertError (fn : String) (msg : String) (now : Nat)
    (ledger : List (String × LedgerEntry)) : List (String × LedgerEntry) :=
  if (ledger.lookup fn).isSome then
    ledger.map (fun p => if p.1 = fn then (p.1, applyError msg now p.2) else p)
  else
    ledger ++ [(fn, { status := .error, records_count := none,
                      error_message := some msg, processed_at := now })]

/-- The ways one call of `SimpleDB.save_file_data` can go, injected as a
parameter: the whole transaction succeeds; `connect()` itself raises (so no
connection exists and the error write is not even attempted); or some
statement raises with message `msg` after connecting, in which case the
best-effort error write succeeds iff `errorWriteOk`. -/
inductive SaveOutcome where
  | ok
  | connectFail
  | failDuring (msg : String) (errorWriteOk : Bool)
deriving DecidableEq

/-- Embeds Python's `str(e)[:200]`: the first 200 characters (code points)
of the message. -/
def truncate200 (s : String) : String :=
  String.mk (s.toList.take 200)

/-- Embeds `SimpleDB.save_file_data`: in one transaction, delete all
`receipts` rows of this file, insert every row of `data`, upsert the ledger
entry to `success`, and commit; on an exception, roll back and attempt a
second transaction upserting the ledger entry to `error` with the message
truncated to 200 characters (`str(e)[:200]`); return whether the success
path committed. -/
def save_file_data (filename : String) (data : List OutRow)
    (oc : SaveOutcome) (now : Nat) (db : DBState) : Bool × DBState :=
  match oc with
  | .ok =>
    let afterDelete := db.receipts.filter (fun r => r.file_name ≠ filename)
    let afterInsert := afterDelete ++ data.map (toReceiptRow filename)
    (true, { receipts := afterInsert,
             processed_files :=
               upsertSuccess filename data.length now db.processed_files })
  | .connectFail => (false, db)
  | .failDuring msg ew =>
    if ew then
      (false, { db with
                processed_files :=
                  upsertError filename (truncate200 msg) now db.processed_files })
    else (false, db)

/-- Embeds `SimpleDB.is_file_processed`:
`SELECT 1 FROM processed_files WHERE file_name = %s AND status = 'success'`;
any exception (injected as `queryFails`) returns `False`. -/
def is_file_processed (filename : String) (db : DBState)
    (queryFails : Bool) : Bool :=
  if queryFails then false
  else db.processed_files.any
    (fun p => decide (p.1 = filename ∧ p.2.status = FileStatus.success))

/-! ### The loader (`loader.py`)

A source file is a parsed snapshot of one CSV on disk: its parent directory
name, its own name, its `stat().st_size`, and its `read_csv` content
(header columns plus rows over the six required fields).  The run counters
of `DataLoader` together with the database form the loader state. -/

/-- One row of a CSV table, giving the cell of each required column. -/
structure Row where
  doc_id : Cell
  item : Cell
  category : Cell
  amount : Cell
  price : Cell
  discount : Cell
deriving DecidableEq

/-- A parsed CSV file: its header and its rows (row fields are meaningful
for the columns present in the header). -/
structure CsvFile where
  columns : List String
  rows : List Row
deriving DecidableEq

/-- A candidate file on disk, as the loader sees it. -/
structure SrcFile where
  parent : String
  name : String
  size : Nat
  content : CsvFile
deriving DecidableEq

/-- The mutable state of a `DataLoader` together with the database. -/
structure LoaderState where
  db : DBState
  processed_count : Nat
  error_count : Nat
  total_records : Nat
deriving DecidableEq

/-- `DataLoader.__init__`: fresh zero counters over a given database. -/
def initLoader (db : DBState) : LoaderState :=
  { db := db, processed_count := 0, error_count := 0, total_records := 0 }

/-- Failure injection for the database calls made while processing one
file: whether `is_file_processed`'s query raises, and how
`save_file_data`'s transaction goes. -/
structure FaultSpec where
  queryFails : Bool
  saveOutcome : SaveOutcome
deriving DecidableEq

/-- Embeds `DataLoader.validate_csv_file`: wrong (case-folded) extension,
file name not matching `digits_digits.csv`, or an empty file make it
invalid. -/
def validate_csv_file (f : SrcFile) : Bool :=
  if lowerStr (pathSuffix f.name) ≠ ".csv" then false
  else if (extract_store_cash_from_filename f.name).isNone then false
  else if f.size = 0 then false
  else true

/-- The row-survival test of `read_and_prepare_data`: the row is kept by
`dropna(subset=['doc_id', 'item'])` and then by the filter
`(amount > 0) & (price >= 0) & (discount >= 0)` on the coerced values. -/
def rowSurvives (r : Row) : Bool :=
  (r.doc_id ≠ Cell.missing) && (r.item ≠ Cell.missing)
    && decide (0 < coerceAmount r.amount)
    && decide (0 ≤ coerceMoney r.price)
    && decide (0 ≤ coerceMoney r.discount)

/-- The per-row transformation of `read_and_prepare_data` on a surviving
row: coerced types, stamped store/cash/date metadata, money columns rounded
to two decimals. -/
def transformRow (sid cid : Nat) (rd : Date) (r : Row) : OutRow :=
  { doc_id := match r.doc_id with | .missing => "" | .val s => s
    item := match r.item with | .missing => "" | .val s => s
    category := r.category
    amount := coerceAmount r.amount
    price := round2 (coerceMoney r.price)
    discount := round2 (coerceMoney r.discount)
    store_id := sid
    cash_id := cid
    receipt_date := rd }

/-- Embeds `DataLoader.read_and_prepare_data`: extract store/cash from the
file name (an unpackable `None` raises, caught as file rejection), parse
the date from the parent directory name, check the required columns, drop
rows without `doc_id`/`item`, fill and coerce the numeric columns, drop
out-of-range rows, stamp metadata and round money columns.  `none` is the
file-level rejection (`return None` or a caught exception). -/
def read_and_prepare_data (f : SrcFile) : Option (List OutRow) :=
  match extract_store_cash_from_filename f.name with
  | none => none
  | some sc =>
    match parseDate f.parent with
    | none => none
    | some rd =>
      let required := ["doc_id", "item", "category", "amount", "price", "discount"]
      if required.all (fun c => f.content.columns.contains c) then
        some ((f.content.rows.filter rowSurvives).map (transformRow sc.1 sc.2 rd))
      else none

/-- Embeds `DataLoader.process_file`: skip if the ledger already shows
success; reject on validation failure; reject an empty or failed
transform; otherwise persist, updating the run counters from the save
result. -/
def process_file (flt : FaultSpec) (now : Nat) (f : SrcFile)
    (st : LoaderState) : Bool × LoaderState :=
  if is_file_processed f.name st.db flt.queryFails then (true, st)
  else if ¬ validate_csv_file f then (false, st)
  else
    match read_and_prepare_data f with
    | none => (false, st)
    | some df =>
      if df.isEmpty then (false, st)
      else
        let res := save_file_data f.name df flt.saveOutcome now st.db
        if res.1 then
          (true, { st with db := res.2,
                           processed_count := st.processed_count + 1,
                           total_records := st.total_records + df.length })
        else
          (false, { st with db := res.2,
                            error_count := st.error_count + 1 })

/-- The ordering key of `find_csv_files`' sort:
`key=lambda x: (x.parent.name, x.name)` under Python's tuple/string
comparison. -/
def fileLe (a b : SrcFile) : Prop :=
  a.parent < b.parent ∨ (a.parent = b.parent ∧ a.name ≤ b.name)

instance : DecidableRel fileLe := fun a b =>
  inferInstanceAs
    (Decidable (a.parent < b.parent ∨ (a.parent = b.parent ∧ a.name ≤ b.name)))

/-- Embeds `DataLoader.find_csv_files` on the list of `*.csv` paths that
`rglob` enumerates (in arbitrary traversal order): keep the files whose
parent directory name parses as a date, then sort by
`(parent name, file name)` (Python's stable sort, modelled by insertion
sort). -/
def find_csv_files (files : List SrcFile) : List SrcFile :=
  (files.filter (fun f => (parseDate f.parent).isSome)).insertionSort fileLe

/-- The statistics dictionary returned by `process_all_files` (the wall
time and derived throughput are outside this embedding). -/
structure RunStats where
  processed : Nat
  errors : Nat
  total_records : Nat
deriving DecidableEq

/-- The `for csv_file in csv_files: self.process_file(csv_file)` loop. -/
def process_files_loop (faults : String → FaultSpec) (now : Nat)
    (files : List SrcFile) (st : LoaderState) : LoaderState :=
  match files with
  | [] => st
  | f :: rest =>
    process_files_loop faults now rest (process_file (faults f.name) now f st).2

/-- Embeds `DataLoader.process_all_files`: discover files, return zero
statistics when none were found, otherwise filter by the optional date,
process each file in order, and report the accumulated counters. -/
def process_all_files (faults : String → FaultSpec) (now : Nat)
    (allFiles : List SrcFile) (specific_date : Option String)
    (st : LoaderState) : LoaderState × RunStats :=
  let csv_files := find_csv_files allFiles
  if csv_files.isEmpty then
    (st, { processed := 0, errors := 0, total_records := 0 })
  else
    let filtered :=
      match specific_date with
      | some d => csv_files.filter (fun f => f.parent = d)
      | none => csv_files
    let final := process_files_loop faults now filtered st
    (final, { processed := final.processed_count,
              errors := final.error_count,
              total_records := final.total_records })

/-- The parsed command-line arguments of `loader.py`'s `main`. -/
structure LoaderArgs where
  date : Option String
  file : Option String
  verbose : Bool
  force : Bool

/-- The loader's environment: the files `rglob` finds under `DATA_DIR`, the
lookup resolving an explicit `--file` path (`none` = `Path(...).exists()`
is false), the fault injection per file name, and the clock. -/
structure LoaderEnv where
  files : List SrcFile
  byPath : String → Option SrcFile
  faults : String → FaultSpec
  now : Nat

/-- Embeds `loader.py`'s `main` after argument parsing (logging setup
aside): build a fresh `DataLoader` over the current database and either
process the single named file (if it exists) or process all files with the
optional date filter. -/
def loaderMain (args : LoaderArgs) (env : LoaderEnv) (db : DBState) :
    LoaderState :=
  let st0 := initLoader db
  match args.file with
  | some p =>
    match env.byPath p with
    | some f => (process_file (env.faults f.name) env.now f st0).2
    | none => st0
  | none => (process_all_files env.faults env.now env.files args.date st0).1

/-! ### The generator (`generate_sales.py`)

The `random` module is embedded as an explicit supply of natural numbers
(`Rng`): each primitive consumes one value and maps it into its documented
range, so every theorem quantifies over all possible random draws.
`datetime.now()` becomes a `now : Nat` parameter. -/

/-- An explicit random-value supply: an infinite stream with a cursor. -/
structure Rng where
  vals : Nat → Nat
  idx : Nat

/-- Consumes one raw value from the supply. -/
def draw (rng : Rng) : Nat × Rng :=
  (rng.vals rng.idx, { rng with idx := rng.idx + 1 })

/-- Models `random.randint(a, b)`: an integer in `[a, b]` (both ends
included; Python raises when `a > b`, so callers are used with `a ≤ b`). -/
def randint (a b : Nat) (rng : Rng) : Nat × Rng :=
  let p := draw rng
  (a + p.1 % (b + 1 - a), p.2)

/-- Models `random.random()`: a fraction in `[0, 1)` (granularity is a
modelling choice; only membership in the unit interval is relied on). -/
def randUnit (rng : Rng) : ℚ × Rng :=
  let p := draw rng
  (mkRat (p.1 % 1000) 1000, p.2)

/-- Models `random.uniform(a, b)`: `a + (b - a) * random()`. -/
def uniformQ (a b : ℚ) (rng : Rng) : ℚ × Rng :=
  let p := randUnit rng
  (a + (b - a) * p.1, p.2)

/-- Models `random.choice(xs)` (callers use non-empty lists; Python raises
on an empty one, here a default is returned). -/
def choice {α : Type} (xs : List α) (dflt : α) (rng : Rng) : α × Rng :=
  let p := draw rng
  (xs.getD (p.1 % xs.length) dflt, p.2)

/-- A product catalog entry with its price range
(`PRODUCTS_BY_CATEGORY`). -/
structure ProductInfo where
  item : String
  priceRange : ℚ × ℚ

/-- Modelled from the spec: the module `config` is not under `src/`; per
section 6 of the specification the generation configuration supplies the
cash-registers-per-store bounds, items-per-receipt bounds, the
receipts-per-cash-per-day upper bound read by the code, the category list,
per-category product catalogs with price ranges, the discount probability
and percentage range, and the holiday date list. -/
structure GenConfig where
  minCashRegisters : Nat
  maxCashRegisters : Nat
  itemsPerReceiptMin : Nat
  itemsPerReceiptMax : Nat
  receiptsPerCashPerDay : Nat
  categories : List String
  productsByCategory : String → List ProductInfo
  discountProbability : ℚ
  discountRange : ℚ × ℚ
  holidays : List String

/-- One generated line item (a row of a generated CSV file). -/
structure GenItem where
  doc_id : String
  item : String
  category : String
  amount : Nat
  price : ℚ
  discount : ℚ
  store_id : Nat
  cash_id : Nat
  receipt_date : Date

/-- Embeds `DataGenerator.initialize_stores`: for every store id `1..n`, a
cash-register count drawn from the configured range and registers numbered
from 1. -/
def initialize_stores (cfg : GenConfig) (numStores : Nat) (rng : Rng) :
    List (Nat × List Nat) × Rng :=
  let step :=
    fun (acc : List (Nat × List Nat) × Rng) (sid : Nat) =>
      let p := randint cfg.minCashRegisters cfg.maxCashRegisters acc.2
      (acc.1 ++ [(sid, (List.range p.1).map (· + 1))], p.2)
  (List.range numStores).foldl (fun acc i => step acc (i + 1)) ([], rng)

/-- Embeds `DataGenerator.generate_doc_id`: a timestamp prefix and a random
suffix. -/
def generate_doc_id (now : Nat) (rng : Rng) : String × Rng :=
  let p := draw rng
  (toString now ++ "_" ++ toString p.1, p.2)

/-- Embeds `DataGenerator.calculate_discount`: with probability
`DISCOUNT_PROBABILITY`, `round(price * uniform(lo, hi), 2)`, otherwise 0. -/
def calculate_discount (cfg : GenConfig) (price : ℚ) (rng : Rng) : ℚ × Rng :=
  let p := randUnit rng
  if p.1 < cfg.discountProbability then
    let u := uniformQ cfg.discountRange.1 cfg.discountRange.2 p.2
    (round2 (price * u.1), u.2)
  else (0, p.2)

/-- The body of `generate_receipt`'s item loop, run `n` times. -/
def genItems (cfg : GenConfig) (doc_id : String) (store_id cash_id : Nat)
    (receipt_date : Date) (n : Nat) (rng : Rng) : List GenItem × Rng :=
  match n with
  | 0 => ([], rng)
  | k + 1 =>
    let c := choice cfg.categories "" rng
    let itemData :=
      choice (cfg.productsByCategory c.1) ⟨"", (0, 0)⟩ c.2
    let pr := uniformQ itemData.1.priceRange.1 itemData.1.priceRange.2 itemData.2
    let am := randint 1 5 pr.2
    let di := calculate_discount cfg pr.1 am.2
    let item : GenItem :=
      { doc_id := doc_id
        item := itemData.1.item
        category := c.1
        amount := am.1
        price := round2 pr.1
        discount := di.1
        store_id := store_id
        cash_id := cash_id
        receipt_date := receipt_date }
    let rest := genItems cfg doc_id store_id cash_id receipt_date k di.2
    (item :: rest.1, rest.2)

/-- Embeds `DataGenerator.generate_receipt`: one doc id, a random item
count in the configured range, and that many generated items. -/
def generate_receipt (cfg : GenConfig) (store_id cash_id : Nat)
    (receipt_date : Date) (now : Nat) (rng : Rng) : List GenItem × Rng :=
  let d := generate_doc_id now rng
  let n := randint cfg.itemsPerReceiptMin cfg.itemsPerReceiptMax d.2
  genItems cfg d.1 store_id cash_id receipt_date n.1 n.2

/-- The body of `generate_cash_data`'s receipt loop, run `n` times. -/
def genReceipts (cfg : GenConfig) (store_id cash_id : Nat) (date : Date)
    (now : Nat) (n : Nat) (rng : Rng) : List GenItem × Rng :=
  match n with
  | 0 => ([], rng)
  | k + 1 =>
    let r := generate_receipt cfg store_id cash_id date now rng
    let rest := genReceipts cfg store_id cash_id date now k r.2
    (r.1 ++ rest.1, rest.2)

/-- Embeds `DataGenerator.generate_cash_data`: the receipts of one cash
register for one day; when no receipt count is passed,
`random.randint(30, RECEIPTS_PER_CASH_PER_DAY)` picks one. -/
def generate_cash_data (cfg : GenConfig) (store_id cash_id : Nat)
    (date : Date) (numReceipts : Option Nat) (now : Nat) (rng : Rng) :
    List GenItem × Rng :=
  let n :=
    match numReceipts with
    | none => randint 30 cfg.receiptsPerCashPerDay rng
    | some n => (n, rng)
  genReceipts cfg store_id cash_id date now n.1 n.2

/-- One CSV file written by `generate_daily_files`. -/
structure WrittenFile where
  dir : String
  store_id : Nat
  cash_id : Nat
  numReceipts : Nat
  rows : List GenItem

/-- The inner `for cash_id in store_info['cash_registers']` loop of
`generate_daily_files`: per register, `random.randint(20,
RECEIPTS_PER_CASH_PER_DAY)` receipts and one written file. -/
def generate_for_cashes (cfg : GenConfig) (store_id : Nat)
    (cashes : List Nat) (date : Date) (now : Nat) (rng : Rng) :
    List WrittenFile × Rng :=
  match cashes with
  | [] => ([], rng)
  | c :: rest =>
    let nr := randint 20 cfg.receiptsPerCashPerDay rng
    let dat := generate_cash_data cfg store_id c date (some nr.1) now nr.2
    let f : WrittenFile :=
      { dir := formatDate date
        store_id := store_id
        cash_id := c
        numReceipts := nr.1
        rows := dat.1 }
    let fs := generate_for_cashes cfg store_id rest date now dat.2
    (f :: fs.1, fs.2)

/-- The outer `for store_id, store_info in self.stores.items()` loop of
`generate_daily_files`. -/
def generate_for_stores (cfg : GenConfig) (stores : List (Nat × List Nat))
    (date : Date) (now : Nat) (rng : Rng) : List WrittenFile × Rng :=
  match stores with
  | [] => ([], rng)
  | s :: rest =>
    let fs := generate_for_cashes cfg s.1 s.2 date now rng
    let more := generate_for_stores cfg rest date now fs.2
    (fs.1 ++ more.1, more.2)

/-- Embeds `DataGenerator.generate_daily_files` for an already-parsed
target date: skip (returning zero files) on a Sunday (`weekday() == 6`) or
on a configured holiday unless `force` is set; otherwise write one file per
store and cash register and return how many. -/
def generate_daily_files (cfg : GenConfig) (stores : List (Nat × List Nat))
    (target : Date) (force : Bool) (now : Nat) (rng : Rng) :
    Nat × List WrittenFile × Rng :=
  if weekday target = 6 ∧ force = false then (0, [], rng)
  else if formatDate target ∈ cfg.holidays ∧ force = false then (0, [], rng)
  else
    let fs := generate_for_stores cfg stores target now rng
    (fs.1.length, fs.1, fs.2)

/-! ### Shared lemmas -/

/-- Looking up a key that is absent from the first list continues in the
second. -/
lemma ledger_lookup_append (fn : String) (l1 l2 : List (String × LedgerEntry))
    (h : l1.lookup fn = none) : (l1 ++ l2).lookup fn = l2.lookup fn := by
  induction l1 with
  | nil => simp
  | cons p rest ih =>
    obtain ⟨k, v⟩ := p
    simp only [List.lookup, List.cons_append] at h ⊢
    cases hbeq : (fn == k) with
    | true => rw [hbeq] at h; exact absurd h (by simp)
    | false => rw [hbeq] at h; exact ih h

/-- A keyed in-place update commutes with lookup. -/
lemma ledger_lookup_map_update (fn : String) (upd : LedgerEntry → LedgerEntry)
    (l : List (String × LedgerEntry)) :
    (l.map (fun p => if p.1 = fn then (p.1, upd p.2) else p)).lookup fn
      = (l.lookup fn).map upd := by
  induction l with
  | nil => simp
  | cons p rest ih =>
    obtain ⟨k, v⟩ := p
    rw [List.map_cons]
    by_cases hk : k = fn
    · subst hk
      rw [if_pos rfl]
      simp [List.lookup]
    · rw [if_neg hk]
      have hbeq : (fn == k) = false := beq_eq_false_iff_ne.mpr (Ne.symm hk)
      simp [List.lookup, hbeq, ih]

/-- The success-path upsert leaves a `success` ledger entry carrying the
row count. -/
lemma lookup_upsertSuccess (fn : String) (n now : Nat)
    (ledger : List (String × LedgerEntry)) :
    ∃ e, (upsertSuccess fn n now ledger).lookup fn = some e ∧
      e.status = FileStatus.success ∧ e.records_count = some n ∧
      e.processed_at = now := by
  unfold upsertSuccess
  split
  next h =>
    rw [ledger_lookup_map_update fn (applySuccess n now) ledger]
    obtain ⟨v, hv⟩ := Option.isSome_iff_exists.mp h
    rw [hv]
    exact ⟨applySuccess n now v, rfl, rfl, rfl, rfl⟩
  next h =>
    have hnone : ledger.lookup fn = none := by
      cases hx : ledger.lookup fn with
      | none => rfl
      | some v => exact absurd (by simp [hx]) h
    rw [ledger_lookup_append fn _ _ hnone]
    refine ⟨{ status := .success, records_count := some n,
              error_message := none, processed_at := now }, ?_, rfl, rfl, rfl⟩
    simp [List.lookup]

/-- The error-path upsert leaves an `error` ledger entry carrying the
message. -/
lemma lookup_upsertError (fn msg : String) (now : Nat)
    (ledger : List (String × LedgerEntry)) :
    ∃ e, (upsertError fn msg now ledger).lookup fn = some e ∧
      e.status = FileStatus.error ∧ e.error_message = some msg ∧
      e.processed_at = now := by
  unfold upsertError
  split
  next h =>
    rw [ledger_lookup_map_update fn (applyError msg now) ledger]
    obtain ⟨v, hv⟩ := Option.isSome_iff_exists.mp h
    rw [hv]
    exact ⟨applyError msg now v, rfl, rfl, rfl, rfl⟩
  next h =>
    have hnone : ledger.lookup fn = none := by
      cases hx : ledger.lookup fn with
      | none => rfl
      | some v => exact absurd (by simp [hx]) h
    rw [ledger_lookup_append fn _ _ hnone]
    refine ⟨{ status := .error, records_count := none,
              error_message := some msg, processed_at := now }, ?_, rfl, rfl, rfl⟩
    simp [List.lookup]

/-- Unfolding of `is_file_processed` without a query fault. -/
lemma is_file_processed_eq_true_iff (fn : String) (db : DBState) :
    is_file_processed fn db false = true ↔
      ∃ p ∈ db.processed_files, p.1 = fn ∧ p.2.status = FileStatus.success := by
  simp [is_file_processed, List.any_eq_true]

/-- `save_file_data` reports success exactly for the committing outcome. -/
lemma save_file_data_fst (fn : String) (data : List OutRow)
    (oc : SaveOutcome) (now : Nat) (db : DBState) :
    (save_file_data fn data oc now db).1 = true ↔ oc = SaveOutcome.ok := by
  cases oc with
  | ok => simp [save_file_data]
  | connectFail => simp [save_file_data]
  | failDuring msg ew => cases ew <;> simp [save_file_data]

/-- The skip path of `process_file`: an (unfaulted) `success` ledger answer
returns `True` and changes nothing. -/
lemma process_file_skip (flt : FaultSpec) (now : Nat) (f : SrcFile)
    (st : LoaderState) (h1 : flt.queryFails = false)
    (h2 : is_file_processed f.name st.db false = true) :
    process_file flt now f st = (true, st) := by
  unfold process_file
  rw [h1, h2]
  simp

/-- The reject paths of `process_file`: validation failure, transform
rejection or an empty transform result return `False` and change
nothing. -/
lemma process_file_reject (flt : FaultSpec) (now : Nat) (f : SrcFile)
    (st : LoaderState)
    (h0 : is_file_processed f.name st.db flt.queryFails = false)
    (h : validate_csv_file f = false ∨ read_and_prepare_data f = none ∨
      read_and_prepare_data f = some []) :
    process_file flt now f st = (false, st) := by
  unfold process_file
  rw [h0]
  rcases h with h | h | h
  · simp [h]
  · cases hv : validate_csv_file f <;> simp [h]
  · cases hv : validate_csv_file f <;> simp [h]

/-- The persist path of `process_file`: a validated, non-empty transform is
handed to `save_file_data`, and the counters move with its result. -/
lemma process_file_persist (flt : FaultSpec) (now : Nat) (f : SrcFile)
    (st : LoaderState) (df : List OutRow)
    (h0 : is_file_processed f.name st.db flt.queryFails = false)
    (h1 : validate_csv_file f = true)
    (h2 : read_and_prepare_data f = some df) (h3 : df ≠ []) :
    process_file flt now f st =
      (if (save_file_data f.name df flt.saveOutcome now st.db).1 then
        (true, { st with
                 db := (save_file_data f.name df flt.saveOutcome now st.db).2,
                 processed_count := st.processed_count + 1,
                 total_records := st.total_records + df.length })
      else
        (false, { st with
                  db := (save_file_data f.name df flt.saveOutcome now st.db).2,
                  error_count := st.error_count + 1 })) := by
  unfold process_file
  rw [h0, h1, h2]
  simp [List.isEmpty_iff, h3]

/-- A truncated message never exceeds 200 characters. -/
lemma truncate200_length (s : String) : (truncate200 s).length ≤ 200 := by
  have h : (truncate200 s).length = (s.toList.take 200).length := rfl
  rw [h, List.length_take]
  exact Nat.min_le_left _ _

/-- The skip branch of `process_file`, for any query-fault setting. -/
lemma process_file_skip_of_processed (flt : FaultSpec) (now : Nat)
    (f : SrcFile) (st : LoaderState)
    (hip : is_file_processed f.name st.db flt.queryFails = true) :
    process_file flt now f st = (true, st) := by
  unfold process_file
  rw [hip]
  simp

/-! ### Claims -/

/-- C1. Re-running ingestion on a file whose ledger entry has status
`success` is a no-op: `process_file` answers `True` and neither the
persisted `receipts` rows tagged with that file name nor the ledger entry
for it (nor anything else in the database) change. -/
theorem process_file_success_ledger_skip_noop (flt : FaultSpec) (now : Nat)
    (f : SrcFile) (st : LoaderState) (h1 : flt.queryFails = false)
    (h2 : ∃ p ∈ st.db.processed_files,
      p.1 = f.name ∧ p.2.status = FileStatus.success) :
    process_file flt now f st = (true, st) ∧
    (process_file flt now f st).2.db.receipts = st.db.receipts ∧
    (process_file flt now f st).2.db.processed_files = st.db.processed_files := by
  have hskip := process_file_skip flt now f st h1
    ((is_file_processed_eq_true_iff f.name st.db).mpr h2)
  exact ⟨hskip, by rw [hskip], by rw [hskip]⟩

/-- Concrete ledger with one successfully processed file. -/
def dbSuccess : DBState :=
  { receipts :=
      [{ doc_id := "A1", store_id := 1, cash_id := 2, item := "Bread",
         category := Cell.val "Food", quantity := 2, unit_price := mkRat 7 2,
         discount_amount := 0, receipt_date := ⟨2024, 1, 1⟩,
         file_name := "1_2.csv" }],
    processed_files :=
      [("1_2.csv",
        { status := FileStatus.success, records_count := some 1,
          error_message := none, processed_at := 5 })] }

/-- Concrete source file whose name matches the successful ledger entry. -/
def fileSuccess : SrcFile :=
  { parent := "2024-01-01", name := "1_2.csv", size := 3,
    content := { columns := [], rows := [] } }

theorem process_file_success_ledger_skip_noop_witness :
    process_file ⟨false, SaveOutcome.ok⟩ 7 fileSuccess (initLoader dbSuccess)
      = (true, initLoader dbSuccess) :=
  (process_file_success_ledger_skip_noop ⟨false, SaveOutcome.ok⟩ 7 fileSuccess
    (initLoader dbSuccess) rfl (by decide)).1

/-- C3. `is_file_processed` answers `true` exactly when a ledger row for
the file name has status `success`; a file whose ledger rows show only
`error` answers `false` (so it is reprocessed), and a query failure also
answers `false`. -/
theorem is_file_processed_success_iff (fn : String) (db : DBState) :
    (is_file_processed fn db false = true ↔
      ∃ p ∈ db.processed_files, p.1 = fn ∧ p.2.status = FileStatus.success) ∧
    is_file_processed fn db true = false ∧
    ((∀ p ∈ db.processed_files, p.1 = fn → p.2.status = FileStatus.error) →
      is_file_processed fn db false = false) := by
  refine ⟨is_file_processed_eq_true_iff fn db, rfl, fun h => ?_⟩
  cases hb : is_file_processed fn db false with
  | false => rfl
  | true =>
    obtain ⟨p, hp, hfn, hsucc⟩ := (is_file_processed_eq_true_iff fn db).mp hb
    have := h p hp hfn
    rw [hsucc] at this
    exact absurd this (by simp)

/-- Concrete ledger holding only an `error` entry for `9_9.csv`. -/
def dbError : DBState :=
  { receipts := [],
    processed_files :=
      [("9_9.csv",
        { status := FileStatus.error, records_count := none,
          error_message := some "boom", processed_at := 3 })] }

theorem is_file_processed_success_iff_witness :
    is_file_processed "1_2.csv" dbSuccess false = true ∧
    is_file_processed "9_9.csv" dbError false = false :=
  ⟨(is_file_processed_success_iff "1_2.csv" dbSuccess).1.mpr (by decide),
   (is_file_processed_success_iff "9_9.csv" dbError).2.2 (by decide)⟩

/-- C9. The loader's `--force` flag is parsed but never read: two runs of
`main` whose arguments differ only in the force flag perform the same work
and end in the same state. -/
theorem loader_force_flag_noop (args : LoaderArgs) (env : LoaderEnv)
    (db : DBState) (b : Bool) :
    loaderMain args env db = loaderMain { args with force := b } env db := rfl

/-- C2. `save_file_data` commits the delete of the file's prior rows, the
insert of every row and the `success` ledger upsert atomically, and answers
`true` exactly then; on a failure after connecting, the transaction is
rolled back (the `receipts` table is exactly as before, so no partial rows
survive) and a best-effort second transaction records an `error` ledger
entry whose message is truncated to at most 200 characters; when even the
connection fails nothing at all is written. -/
theorem save_file_data_atomic (fn : String) (data : List OutRow)
    (oc : SaveOutcome) (now : Nat) (db : DBState) :
    ((save_file_data fn data oc now db).1 = true ↔ oc = SaveOutcome.ok) ∧
    (oc = SaveOutcome.ok →
      (save_file_data fn data oc now db).2.receipts
          = db.receipts.filter (fun r => r.file_name ≠ fn)
              ++ data.map (toReceiptRow fn) ∧
      ∃ e, (save_file_data fn data oc now db).2.processed_files.lookup fn
            = some e ∧
        e.status = FileStatus.success ∧ e.records_count = some data.length) ∧
    (oc = SaveOutcome.connectFail →
      (save_file_data fn data oc now db).2 = db) ∧
    (∀ msg ew, oc = SaveOutcome.failDuring msg ew →
      (save_file_data fn data oc now db).2.receipts = db.receipts ∧
      (ew = false → (save_file_data fn data oc now db).2 = db) ∧
      (ew = true →
        ∃ e, (save_file_data fn data oc now db).2.processed_files.lookup fn
              = some e ∧
          e.status = FileStatus.error ∧
          ∃ m, e.error_message = some m ∧ m.length ≤ 200)) := by
  refine ⟨save_file_data_fst fn data oc now db, ?_, ?_, ?_⟩
  · intro h
    subst h
    refine ⟨rfl, ?_⟩
    obtain ⟨e, he, hs, hr, _⟩ :=
      lookup_upsertSuccess fn data.length now db.processed_files
    exact ⟨e, he, hs, hr⟩
  · intro h
    subst h
    rfl
  · intro msg ew h
    subst h
    cases ew with
    | false => exact ⟨rfl, fun _ => rfl, fun h => Bool.noConfusion h⟩
    | true =>
      obtain ⟨e, he, hs, hm, _⟩ :=
        lookup_upsertError fn (truncate200 msg) now db.processed_files
      exact ⟨rfl, fun h => Bool.noConfusion h,
        fun _ => ⟨e, he, hs, truncate200 msg, hm, truncate200_length msg⟩⟩

theorem save_file_data_atomic_witness :
    (save_file_data "1_2.csv" [] SaveOutcome.ok 0 ⟨[], []⟩).1 = true ∧
    (save_file_data "1_2.csv" [] SaveOutcome.connectFail 0 ⟨[], []⟩).2
      = (⟨[], []⟩ : DBState) ∧
    (∃ e, (save_file_data "1_2.csv" []
            (SaveOutcome.failDuring "boom" true) 0 ⟨[], []⟩).2.processed_files.lookup
              "1_2.csv" = some e ∧
      e.status = FileStatus.error ∧
      ∃ m, e.error_message = some m ∧ m.length ≤ 200) :=
  ⟨(save_file_data_atomic "1_2.csv" [] SaveOutcome.ok 0 ⟨[], []⟩).1.mpr rfl,
   (save_file_data_atomic "1_2.csv" [] SaveOutcome.connectFail 0
      ⟨[], []⟩).2.2.1 rfl,
   ((save_file_data_atomic "1_2.csv" [] (SaveOutcome.failDuring "boom" true) 0
      ⟨[], []⟩).2.2.2 "boom" true rfl).2.2 rfl⟩

/-- Concrete file rejected by the validator (wrong extension). -/
def fileBadName : SrcFile :=
  { parent := "2024-01-01", name := "bad.txt", size := 5,
    content := { columns := [], rows := [] } }

/-- C4, counterexample. A validator failure does NOT increment the error
counter: on a concrete invalid file the coordinator returns `False` and
leaves the whole loader state — including `error_count` — unchanged,
contradicting the claim that such a failure is counted as an error. -/
theorem process_file_reject_counts_error_cex :
    validate_csv_file fileBadName = false ∧
    process_file ⟨false, SaveOutcome.ok⟩ 0 fileBadName (initLoader ⟨[], []⟩)
      = (false, initLoader ⟨[], []⟩) ∧
    ¬ ((process_file ⟨false, SaveOutcome.ok⟩ 0 fileBadName
          (initLoader ⟨[], []⟩)).2.error_count
        = (initLoader ⟨[], []⟩).error_count + 1) := by decide

/-- C4, amended. A validator failure transitions the file to rejected and
no persistence is attempted, but it is NOT counted in the error counter
(the whole state is unchanged and `False` is returned); a transformer
result that is empty or rejected is likewise not counted — only
persistence failures increment the error counter. -/
theorem process_file_reject_no_error_count (flt : FaultSpec) (now : Nat)
    (f : SrcFile) (st : LoaderState)
    (h0 : is_file_processed f.name st.db flt.queryFails = false)
    (h : validate_csv_file f = false ∨ read_and_prepare_data f = none ∨
      read_and_prepare_data f = some []) :
    process_file flt now f st = (false, st) ∧
    (process_file flt now f st).2.error_count = st.error_count ∧
    (process_file flt now f st).2.db = st.db := by
  have hrej := process_file_reject flt now f st h0 h
  exact ⟨hrej, by rw [hrej], by rw [hrej]⟩

theorem process_file_reject_no_error_count_witness :
    process_file ⟨false, SaveOutcome.ok⟩ 0 fileBadName (initLoader ⟨[], []⟩)
      = (false, initLoader ⟨[], []⟩) :=
  (process_file_reject_no_error_count ⟨false, SaveOutcome.ok⟩ 0 fileBadName
    (initLoader ⟨[], []⟩) (by decide) (Or.inl (by decide))).1

/-- C10. When `process_file` skips an already-successful file it returns
`True` and leaves all three run counters (and everything else) unchanged;
moreover, across every call, `processed_count` and `total_records` grow
only when persistence actually succeeded, and `error_count` grows only on
a persistence failure — so only files handed to the gateway move the
statistics. -/
theorem process_file_skip_counters_frame (flt : FaultSpec) (now : Nat)
    (f : SrcFile) (st : LoaderState) :
    (flt.queryFails = false → is_file_processed f.name st.db false = true →
      process_file flt now f st = (true, st)) ∧
    ((process_file flt now f st).2.processed_count = st.processed_count ∨
      ((process_file flt now f st).1 = true ∧
       (process_file flt now f st).2.processed_count = st.processed_count + 1 ∧
       flt.saveOutcome = SaveOutcome.ok)) ∧
    ((process_file flt now f st).2.total_records = st.total_records ∨
      ((process_file flt now f st).1 = true ∧
       flt.saveOutcome = SaveOutcome.ok ∧
       ∃ df, read_and_prepare_data f = some df ∧
         (process_file flt now f st).2.total_records
           = st.total_records + df.length)) ∧
    ((process_file flt now f st).2.error_count = st.error_count ∨
      ((process_file flt now f st).1 = false ∧
       (process_file flt now f st).2.error_count = st.error_count + 1 ∧
       flt.saveOutcome ≠ SaveOutcome.ok)) := by
  refine ⟨fun h1 h2 => process_file_skip flt now f st h1 h2, ?_⟩
  cases hip : is_file_processed f.name st.db flt.queryFails with
  | true =>
    rw [process_file_skip_of_processed flt now f st hip]
    exact ⟨Or.inl rfl, Or.inl rfl, Or.inl rfl⟩
  | false =>
    cases hv : validate_csv_file f with
    | false =>
      rw [process_file_reject flt now f st hip (Or.inl hv)]
      exact ⟨Or.inl rfl, Or.inl rfl, Or.inl rfl⟩
    | true =>
      cases hr : read_and_prepare_data f with
      | none =>
        rw [process_file_reject flt now f st hip (Or.inr (Or.inl hr))]
        exact ⟨Or.inl rfl, Or.inl rfl, Or.inl rfl⟩
      | some df =>
        by_cases hdf : df = []
        · subst hdf
          rw [process_file_reject flt now f st hip (Or.inr (Or.inr hr))]
          exact ⟨Or.inl rfl, Or.inl rfl, Or.inl rfl⟩
        · have hper := process_file_persist flt now f st df hip hv hr hdf
          by_cases hoc : flt.saveOutcome = SaveOutcome.ok
          · have hs : (save_file_data f.name df flt.saveOutcome now st.db).1
                = true :=
              (save_file_data_fst f.name df flt.saveOutcome now st.db).mpr hoc
            rw [hper, if_pos hs]
            exact ⟨Or.inr ⟨rfl, rfl, hoc⟩, Or.inr ⟨rfl, hoc, df, rfl, rfl⟩,
              Or.inl rfl⟩
          · have hs : (save_file_data f.name df flt.saveOutcome now st.db).1
                = false := by
              cases hb : (save_file_data f.name df flt.saveOutcome now st.db).1
              · rfl
              · exact absurd
                  ((save_file_data_fst f.name df flt.saveOutcome now st.db).mp
                    hb) hoc
            rw [hper, if_neg (by rw [hs]; exact fun h => by cases h)]
            exact ⟨Or.inl rfl, Or.inl rfl, Or.inr ⟨rfl, rfl, hoc⟩⟩

/-- A second concrete successfully-processed file for exercising the skip
frame property. -/
def dbSuccess2 : DBState :=
  { receipts := [],
    processed_files :=
      [("2_3.csv",
        { status := FileStatus.success, records_count := some 0,
          error_message := none, processed_at := 1 })] }

/-- The corresponding source file. -/
def fileSuccess2 : SrcFile :=
  { parent := "2024-02-02", name := "2_3.csv", size := 9,
    content := { columns := [], rows := [] } }

theorem process_file_skip_counters_frame_witness :
    process_file ⟨false, SaveOutcome.connectFail⟩ 11 fileSuccess2
      (initLoader dbSuccess2) = (true, initLoader dbSuccess2) :=
  (process_file_skip_counters_frame ⟨false, SaveOutcome.connectFail⟩ 11
    fileSuccess2 (initLoader dbSuccess2)).1 rfl (by decide)

instance : IsTotal SrcFile fileLe :=
  ⟨fun a b => by
    rcases lt_trichotomy a.parent b.parent with h | h | h
    · exact Or.inl (Or.inl h)
    · rcases le_total a.name b.name with hn | hn
      · exact Or.inl (Or.inr ⟨h, hn⟩)
      · exact Or.inr (Or.inr ⟨h.symm, hn⟩)
    · exact Or.inr (Or.inl h)⟩

instance : IsTrans SrcFile fileLe :=
  ⟨fun a b c hab hbc => by
    rcases hab with h1 | ⟨e1, l1⟩
    · rcases hbc with h2 | ⟨e2, l2⟩
      · exact Or.inl (h1.trans h2)
      · exact Or.inl (lt_of_lt_of_le h1 (le_of_eq e2))
    · rcases hbc with h2 | ⟨e2, l2⟩
      · exact Or.inl (lt_of_le_of_lt (le_of_eq e1) h2)
      · exact Or.inr ⟨e1.trans e2, l1.trans l2⟩⟩

/-- C5. `find_csv_files` admits a file exactly when its immediate parent
directory name parses as a `YYYY-MM-DD` calendar date (the `strptime`
criterion), excluding every other candidate, and the returned list is
sorted by parent-directory name and then by file name — for every
directory tree, i.e. every list of candidate files `rglob` may
enumerate. -/
theorem find_csv_files_date_filter_sorted (files : List SrcFile) :
    (∀ f ∈ find_csv_files files, (parseDate f.parent).isSome) ∧
    (∀ f, f ∈ find_csv_files files ↔
      f ∈ files ∧ (parseDate f.parent).isSome) ∧
    List.Sorted fileLe (find_csv_files files) := by
  have hmem : ∀ f, f ∈ find_csv_files files ↔
      f ∈ files ∧ ((parseDate f.parent).isSome = true) := by
    intro f
    unfold find_csv_files
    rw [List.mem_insertionSort]
    exact List.mem_filter
  exact ⟨fun f hf => ((hmem f).mp hf).2, hmem,
    List.sorted_insertionSort fileLe _⟩

/-- A discovered file inside a date directory. -/
def fileDated : SrcFile :=
  { parent := "2024-01-01", name := "1_1.csv", size := 1,
    content := { columns := [], rows := [] } }

/-- A stray file whose parent directory is not a date. -/
def fileStray : SrcFile :=
  { parent := "archive", name := "2_2.csv", size := 1,
    content := { columns := [], rows := [] } }

theorem find_csv_files_date_filter_sorted_witness :
    fileDated ∈ find_csv_files [fileStray, fileDated] ∧
    List.Sorted fileLe (find_csv_files [fileStray, fileDated]) :=
  ⟨((find_csv_files_date_filter_sorted [fileStray, fileDated]).2.1
      fileDated).mpr ⟨by decide, by decide⟩,
   (find_csv_files_date_filter_sorted [fileStray, fileDated]).2.2⟩

/-- Half-even rounding of a non-negative rational is non-negative. -/
lemma roundHalfEven_nonneg (x : ℚ) (hx : 0 ≤ x) : 0 ≤ roundHalfEven x := by
  have hn : 0 ≤ Int.fdiv x.num (x.den : Int) :=
    Int.fdiv_nonneg (Rat.num_nonneg.mpr hx) (Int.natCast_nonneg _)
  unfold roundHalfEven ratFloorI
  dsimp only
  split_ifs <;> omega

/-- Rounding a non-negative money value to two decimals stays
non-negative. -/
lemma round2_nonneg (q : ℚ) (hq : 0 ≤ q) : 0 ≤ round2 q := by
  unfold round2
  apply Rat.mkRat_nonneg
  apply roundHalfEven_nonneg
  exact Rat.mkRat_nonneg
    (mul_nonneg (Rat.num_nonneg.mpr hq) (by norm_num)) _

/-- A well-formed row in the sense of the specification's scenario: both
identifiers present and every numeric field a parseable number satisfying
the constraints (`quantity > 0`, `price ≥ 0`, `discount ≥ 0`). -/
def wellFormedRow (r : Row) : Bool :=
  (r.doc_id ≠ Cell.missing) && (r.item ≠ Cell.missing)
    && (match toNumericCell r.amount with
        | some q => decide (0 < truncQ q)
        | none => false)
    && (match toNumericCell r.price with
        | some q => decide (0 ≤ q)
        | none => false)
    && (match toNumericCell r.discount with
        | some q => decide (0 ≤ q)
        | none => false)

/-- A well-formed row survives the cleaning pass. -/
lemma wellFormed_survives (r : Row) (h : wellFormedRow r = true) :
    rowSurvives r = true := by
  simp only [wellFormedRow, Bool.and_eq_true] at h
  obtain ⟨⟨⟨⟨hdoc, hitem⟩, ham⟩, hpr⟩, hdis⟩ := h
  rcases hqa : toNumericCell r.amount with _ | qa
  · rw [hqa] at ham
    exact Bool.noConfusion ham
  rcases hqp : toNumericCell r.price with _ | qp
  · rw [hqp] at hpr
    exact Bool.noConfusion hpr
  rcases hqd : toNumericCell r.discount with _ | qd
  · rw [hqd] at hdis
    exact Bool.noConfusion hdis
  rw [hqa] at ham
  rw [hqp] at hpr
  rw [hqd] at hdis
  simp only [rowSurvives, coerceAmount, coerceMoney, hqa, hqp, hqd,
    Option.getD_some, Bool.and_eq_true]
  exact ⟨⟨⟨⟨hdoc, hitem⟩, ham⟩, hpr⟩, hdis⟩

/-- A row missing its receipt id or item neither survives nor is
well-formed. -/
lemma missing_id_not_survives (r : Row)
    (h : r.doc_id = Cell.missing ∨ r.item = Cell.missing) :
    rowSurvives r = false ∧ wellFormedRow r = false := by
  rcases h with h | h <;>
    simp [rowSurvives, wellFormedRow, h]

/-- C6. For an accepted file, rows missing `doc_id` or `item` are dropped,
missing discounts become 0, quantity coerces to an integer (non-numeric →
1), price and discount coerce to decimals (non-numeric → 0), rows failing
`quantity > 0`, `price ≥ 0`, `discount ≥ 0` are dropped; hence a file
whose rows split into N well-formed rows and M rows missing `doc_id` or
`item` yields exactly N surviving rows (all satisfying the constraints),
and the ledger row count written on successful persistence is exactly N. -/
theorem read_and_prepare_counts (f : SrcFile) (sc : Nat × Nat) (rd : Date)
    (N : Nat) (now : Nat) (db : DBState)
    (hsc : extract_store_cash_from_filename f.name = some sc)
    (hdate : parseDate f.parent = some rd)
    (hcols : (["doc_id", "item", "category", "amount", "price",
      "discount"]).all (fun c => f.content.columns.contains c) = true)
    (hpart : ∀ r ∈ f.content.rows, wellFormedRow r = true ∨
      (r.doc_id = Cell.missing ∨ r.item = Cell.missing))
    (hN : (f.content.rows.filter wellFormedRow).length = N) :
    ∃ out, read_and_prepare_data f = some out ∧ out.length = N ∧
      (∀ o ∈ out, 0 < o.amount ∧ 0 ≤ o.price ∧ 0 ≤ o.discount) ∧
      (∃ e, (save_file_data f.name out SaveOutcome.ok now
          db).2.processed_files.lookup f.name = some e ∧
        e.status = FileStatus.success ∧ e.records_count = some N) ∧
      coerceMoney Cell.missing = 0 ∧ coerceAmount Cell.missing = 1 ∧
      (∀ s, parseNum s = none →
        coerceAmount (Cell.val s) = 1 ∧ coerceMoney (Cell.val s) = 0) := by
  have hmain : read_and_prepare_data f
      = some ((f.content.rows.filter rowSurvives).map
          (transformRow sc.1 sc.2 rd)) := by
    unfold read_and_prepare_data
    rw [hsc, hdate]
    dsimp only
    rw [if_pos hcols]
  have hfe : f.content.rows.filter rowSurvives
      = f.content.rows.filter wellFormedRow := by
    apply List.filter_congr
    intro r hr
    rcases hpart r hr with h | h
    · rw [wellFormed_survives r h, h]
    · obtain ⟨h1, h2⟩ := missing_id_not_survives r h
      rw [h1, h2]
  have hlen : ((f.content.rows.filter rowSurvives).map
      (transformRow sc.1 sc.2 rd)).length = N := by
    rw [List.length_map, hfe]
    exact hN
  refine ⟨_, hmain, hlen, ?_, ?_, by decide, by decide, ?_⟩
  · intro o ho
    obtain ⟨r, hr, rfl⟩ := List.mem_map.mp ho
    have hs := (List.mem_filter.mp hr).2
    simp only [rowSurvives, Bool.and_eq_true, decide_eq_true_eq] at hs
    obtain ⟨⟨⟨⟨_, _⟩, ham⟩, hpr⟩, hdis⟩ := hs
    exact ⟨ham, round2_nonneg _ hpr, round2_nonneg _ hdis⟩
  · obtain ⟨e, he, hst, hrc, _⟩ := lookup_upsertSuccess f.name
      ((f.content.rows.filter rowSurvives).map
        (transformRow sc.1 sc.2 rd)).length now db.processed_files
    refine ⟨e, ?_, hst, ?_⟩
    · exact he
    · rw [hrc, hlen]
  · intro s hps
    constructor
    · simp [coerceAmount, toNumericCell, hps]
      decide
    · simp [coerceMoney, toNumericCell, hps]

/-- A concrete accepted file: one clean row and one row with a missing
`doc_id`. -/
def fileGood : SrcFile :=
  { parent := "2024-03-10", name := "3_2.csv", size := 50,
    content :=
      { columns := ["doc_id", "item", "category", "amount", "price",
          "discount"],
        rows :=
          [{ doc_id := Cell.val "A1", item := Cell.val "Bread",
             category := Cell.val "Food", amount := Cell.val "2",
             price := Cell.val "3.50", discount := Cell.val "0" },
           { doc_id := Cell.missing, item := Cell.val "Milk",
             category := Cell.val "Food", amount := Cell.val "1",
             price := Cell.val "2.00", discount := Cell.val "0" }] } }

theorem read_and_prepare_counts_witness :
    ∃ out, read_and_prepare_data fileGood = some out ∧ out.length = 1 ∧
      (∀ o ∈ out, 0 < o.amount ∧ 0 ≤ o.price ∧ 0 ≤ o.discount) ∧
      (∃ e, (save_file_data fileGood.name out SaveOutcome.ok 0
          (⟨[], []⟩ : DBState)).2.processed_files.lookup fileGood.name
            = some e ∧
        e.status = FileStatus.success ∧ e.records_count = some 1) ∧
      coerceMoney Cell.missing = 0 ∧ coerceAmount Cell.missing = 1 ∧
      (∀ s, parseNum s = none →
        coerceAmount (Cell.val s) = 1 ∧ coerceMoney (Cell.val s) = 0) :=
  read_and_prepare_counts fileGood (3, 2) ⟨2024, 3, 10⟩ 1 0 ⟨[], []⟩
    (by decide) (by decide) (by decide) (by decide) (by decide)

/-- `random.randint(a, b)` stays within its inclusive bounds. -/
lemma randint_bounds (a b : Nat) (rng : Rng) (h : a ≤ b) :
    a ≤ (randint a b rng).1 ∧ (randint a b rng).1 ≤ b := by
  unfold randint draw
  dsimp only
  refine ⟨Nat.le_add_right a _, ?_⟩
  have hk : 0 < b + 1 - a := by omega
  have := Nat.mod_lt (rng.vals rng.idx) hk
  omega

/-- The inner generation loop writes exactly one file per cash register. -/
lemma generate_for_cashes_pairs (cfg : GenConfig) (sid : Nat) (date : Date)
    (now : Nat) : ∀ (cashes : List Nat) (rng : Rng),
    ((generate_for_cashes cfg sid cashes date now rng).1).map
        (fun w => (w.store_id, w.cash_id))
      = cashes.map (fun c => (sid, c)) := by
  intro cashes
  induction cashes with
  | nil => intro rng; rfl
  | cons c rest ih =>
    intro rng
    simp [generate_for_cashes, ih]

/-- Every file of the inner loop carries a receipt count within
`[20, RECEIPTS_PER_CASH_PER_DAY]`. -/
lemma generate_for_cashes_bounds (cfg : GenConfig) (sid : Nat) (date : Date)
    (now : Nat) (h : 20 ≤ cfg.receiptsPerCashPerDay) :
    ∀ (cashes : List Nat) (rng : Rng) (w : WrittenFile),
    w ∈ (generate_for_cashes cfg sid cashes date now rng).1 →
    20 ≤ w.numReceipts ∧ w.numReceipts ≤ cfg.receiptsPerCashPerDay := by
  intro cashes
  induction cashes with
  | nil => intro rng w hw; simp [generate_for_cashes] at hw
  | cons c rest ih =>
    intro rng w hw
    simp only [generate_for_cashes, List.mem_cons] at hw
    rcases hw with rfl | hw
    · exact randint_bounds 20 cfg.receiptsPerCashPerDay rng h
    · exact ih _ w hw

/-- The outer generation loop writes exactly one file per store and cash
register, in store order. -/
lemma generate_for_stores_pairs (cfg : GenConfig) (date : Date) (now : Nat) :
    ∀ (stores : List (Nat × List Nat)) (rng : Rng),
    ((generate_for_stores cfg stores date now rng).1).map
        (fun w => (w.store_id, w.cash_id))
      = stores.flatMap (fun s => s.2.map (fun c => (s.1, c))) := by
  intro stores
  induction stores with
  | nil => intro rng; rfl
  | cons s rest ih =>
    intro rng
    simp [generate_for_stores, generate_for_cashes_pairs, ih]

/-- Receipt-count bounds for the full generation pass. -/
lemma generate_for_stores_bounds (cfg : GenConfig) (date : Date) (now : Nat)
    (h : 20 ≤ cfg.receiptsPerCashPerDay) :
    ∀ (stores : List (Nat × List Nat)) (rng : Rng) (w : WrittenFile),
    w ∈ (generate_for_stores cfg stores date now rng).1 →
    20 ≤ w.numReceipts ∧ w.numReceipts ≤ cfg.receiptsPerCashPerDay := by
  intro stores
  induction stores with
  | nil => intro rng w hw; simp [generate_for_stores] at hw
  | cons s rest ih =>
    intro rng w hw
    simp only [generate_for_stores, List.mem_append] at hw
    rcases hw with hw | hw
    · exact generate_for_cashes_bounds cfg s.1 date now h s.2 _ w hw
    · exact ih _ w hw

/-- C7. `generate_daily_files` returns 0 and writes no files when the date
is the weekly off-day (Sunday, `weekday() == 6`) or a configured holiday,
unless `force` is set — in which case one file is generated for every
store and cash register. -/
theorem generate_daily_files_offday_skip (cfg : GenConfig)
    (stores : List (Nat × List Nat)) (target : Date) (force : Bool)
    (now : Nat) (rng : Rng) :
    (force = false → (weekday target = 6 ∨ formatDate target ∈ cfg.holidays) →
      generate_daily_files cfg stores target force now rng = (0, [], rng)) ∧
    (force = true →
      ((generate_daily_files cfg stores target force now rng).2.1.map
          (fun w => (w.store_id, w.cash_id)))
        = stores.flatMap (fun s => s.2.map (fun c => (s.1, c)))) := by
  constructor
  · intro hf h
    subst hf
    unfold generate_daily_files
    rcases h with h | h
    · rw [if_pos ⟨h, rfl⟩]
    · by_cases hw : weekday target = 6
      · rw [if_pos ⟨hw, rfl⟩]
      · rw [if_neg (fun hc => hw hc.1), if_pos ⟨h, rfl⟩]
  · intro hf
    subst hf
    unfold generate_daily_files
    rw [if_neg (fun hc => Bool.noConfusion hc.2),
      if_neg (fun hc => Bool.noConfusion hc.2)]
    exact generate_for_stores_pairs cfg target now stores rng

/-- A small concrete generation configuration. -/
def cfgW : GenConfig :=
  { minCashRegisters := 1, maxCashRegisters := 2,
    itemsPerReceiptMin := 1, itemsPerReceiptMax := 3,
    receiptsPerCashPerDay := 25,
    categories := ["Food"],
    productsByCategory := fun _ => [⟨"Bread", (1, 3)⟩],
    discountProbability := mkRat 3 10,
    discountRange := (mkRat 1 20, mkRat 3 10),
    holidays := ["2024-01-01"] }

/-- A concrete random supply. -/
def rngW : Rng := { vals := fun _ => 0, idx := 0 }

theorem generate_daily_files_offday_skip_witness :
    generate_daily_files cfgW [(1, [1, 2])] ⟨2024, 1, 7⟩ false 0 rngW
      = (0, [], rngW) :=
  (generate_daily_files_offday_skip cfgW [(1, [1, 2])] ⟨2024, 1, 7⟩ false 0
    rngW).1 rfl (Or.inl (by decide))

/-- C8. On every non-skipped generation day, exactly one file is written
per store and cash-register pair, each with a random receipt count lying
within the bounds `randint(20, RECEIPTS_PER_CASH_PER_DAY)` draws from:
at least 20 and at most the configured receipts-per-cash maximum. -/
theorem generate_daily_files_one_per_cash_receipt_bounds (cfg : GenConfig)
    (stores : List (Nat × List Nat)) (target : Date) (force : Bool)
    (now : Nat) (rng : Rng)
    (hmax : 20 ≤ cfg.receiptsPerCashPerDay)
    (h1 : ¬(weekday target = 6 ∧ force = false))
    (h2 : ¬(formatDate target ∈ cfg.holidays ∧ force = false)) :
    ((generate_daily_files cfg stores target force now rng).2.1.map
        (fun w => (w.store_id, w.cash_id)))
      = stores.flatMap (fun s => s.2.map (fun c => (s.1, c))) ∧
    (generate_daily_files cfg stores target force now rng).1
      = (stores.flatMap (fun s => s.2.map (fun c => (s.1, c)))).length ∧
    ∀ w ∈ (generate_daily_files cfg stores target force now rng).2.1,
      20 ≤ w.numReceipts ∧ w.numReceipts ≤ cfg.receiptsPerCashPerDay := by
  unfold generate_daily_files
  rw [if_neg h1, if_neg h2]
  dsimp only
  have hpairs := generate_for_stores_pairs cfg target now stores rng
  have hlen := congrArg List.length hpairs
  rw [List.length_map] at hlen
  exact ⟨hpairs, hlen,
    fun w hw => generate_for_stores_bounds cfg target now hmax stores rng w hw⟩

theorem generate_daily_files_one_per_cash_receipt_bounds_witness :
    ((generate_daily_files cfgW [(1, [1])] ⟨2024, 1, 6⟩ false 0
        rngW).2.1.map (fun w => (w.store_id, w.cash_id))) = [(1, 1)] ∧
    (generate_daily_files cfgW [(1, [1])] ⟨2024, 1, 6⟩ false 0 rngW).1 = 1 :=
  have h := generate_daily_files_one_per_cash_receipt_bounds cfgW [(1, [1])]
    ⟨2024, 1, 6⟩ false 0 rngW (by decide) (by decide) (by decide)
  ⟨h.1.trans (by decide), h.2.1.trans (by decide)⟩

end SalesPipeline
